import Mathlib

/-!
Shallow embedding of the search-strategy pipeline of
`src/agents/web_search_agent.py` (class `WebSearchAgent`), covering
`_extract_search_queries`, `_is_search_complete`, `search`,
`execute_search_strategy`, `_create_combined_results` and
`_evaluate_search_results`.  Python strings are modelled as Lean `String`
values (character lists); the ASCII fragments of `str.lower`, `\d` and `\s`
are modelled, which covers every indicator phrase, marker phrase and regex
character class appearing in the source.  External collaborators (the
LangChain search chain, the raw DuckDuckGo tool and the LLM) are modelled
as function parameters returning `Except String _`, a raised exception
being an `Except.error`.
-/

namespace AgenticAI

/-- Whitespace as recognised by Python `str.strip()` and the regex class
`\s`, restricted to the ASCII range. -/
def pyIsSpace (c : Char) : Bool :=
  c = ' ' || c = '\t' || c = '\n' || c = '\r' || c = '\x0b' || c = '\x0c'

/-- Python `str.strip()`: drop leading and trailing whitespace. -/
def pyStrip (l : List Char) : List Char :=
  ((l.dropWhile pyIsSpace).reverse.dropWhile pyIsSpace).reverse

/-- Python `str.strip('" ')`: drop leading and trailing double quotes and
spaces, as applied to extracted queries. -/
def stripQuoteSpace (l : List Char) : List Char :=
  ((l.dropWhile fun c => c = '"' || c = ' ').reverse.dropWhile
    fun c => c = '"' || c = ' ').reverse

/-- Python substring membership `needle in hay`. -/
def containsSub : List Char → List Char → Bool
  | [], needle => needle.isEmpty
  | c :: t, needle => needle.isPrefixOf (c :: t) || containsSub t needle

/-- Python `text.split('\n')`. -/
def splitLines : List Char → List (List Char)
  | [] => [[]]
  | c :: t =>
    if c = '\n' then [] :: splitLines t
    else
      match splitLines t with
      | [] => [[c]]
      | h :: r => (c :: h) :: r

/-- Helper for the non-greedy prefix strip: the suffix after the first `:`
or `-` with its leading whitespace removed, when such a delimiter exists. -/
def afterFirstDelim : List Char → Option (List Char)
  | [] => none
  | c :: t =>
    if c = ':' || c = '-' then some (t.dropWhile pyIsSpace)
    else afterFirstDelim t

/-- Embeds `re.sub(r'^.*?[:-]\s*', '', line)`: remove everything up to and
including the first colon or dash together with the whitespace following
it; a line containing no colon and no dash is returned unchanged (the
pattern then has no match). -/
def subLeadingToDelim (l : List Char) : List Char :=
  match afterFirstDelim l with
  | some r => r
  | none => l

/-- Embeds `re.match(r'^\d+[\.\)]|^[-*•]', line)`: the line starts with a
run of digits followed by `.` or `)`, or with one of `-`, `*`, `•`. -/
def matchesBullet : List Char → Bool
  | [] => false
  | c :: t =>
    if c = '-' || c = '*' || c = '•' then true
    else if c.isDigit then
      match t.dropWhile Char.isDigit with
      | d :: _ => d = '.' || d = ')'
      | [] => false
    else false

/-- Character class `[\d\.\)\-*•\s]` of the bullet-stripping regex. -/
def isBulletChar (c : Char) : Bool :=
  c.isDigit || c = '.' || c = ')' || c = '-' || c = '*' || c = '•' || pyIsSpace c

/-- Embeds `re.sub(r'^[\d\.\)\-*•\s]+', '', line)`: drop the maximal
leading run of digits, periods, closing parentheses, dashes, asterisks,
bullet characters and whitespace. -/
def dropBulletRun (l : List Char) : List Char := l.dropWhile isBulletChar

/-- Left-to-right scanner behind `findQuoted`.  The second argument is
`none` outside a candidate match and `some acc` after an opening quote,
`acc` holding the body read so far.  A closing quote after a non-empty body
emits the body (a regex match of `"([^"]+)"`); a quote directly after an
opening quote restarts the attempt at that quote, exactly as the regex
engine does after the one-character failed-match advance on `""`. -/
def findQuotedAux : List Char → Option (List Char) → List (List Char)
  | [], _ => []
  | c :: t, none =>
    if c = '"' then findQuotedAux t (some []) else findQuotedAux t none
  | c :: t, some acc =>
    if c = '"' then
      if acc.isEmpty then findQuotedAux t (some [])
      else acc :: findQuotedAux t none
    else findQuotedAux t (some (acc ++ [c]))

/-- Embeds `re.findall(r'"([^"]+)"', text)`: the non-overlapping
double-quoted substrings with non-empty bodies, left to right. -/
def findQuoted (l : List Char) : List (List Char) :=
  findQuotedAux l none

/-- Marker phrases of the query-plan heuristic in `_extract_search_queries`. -/
def markerPhrases : List String := ["search for", "query:", "research:", "look up"]

/-- Python `str.lower()`, restricted to its ASCII action. -/
def lowerChars (l : List Char) : List Char := l.map Char.toLower

/-- Test `any(word in line.lower() for word in [...])` of
`_extract_search_queries`. -/
def hasMarkerPhrase (line : List Char) : Bool :=
  markerPhrases.any fun w => containsSub (lowerChars line) w.data

/-- Acceptance test `if query and len(query) > 5` applied to a cleaned
candidate query. -/
def acceptQuery (q : List Char) : Option (List Char) :=
  if q ≠ [] ∧ 5 < q.length then some q else none

/-- One iteration of the line loop of `_extract_search_queries`: the query
accepted from this raw line, if any. -/
def queryOfLine (rawLine : List Char) : Option (List Char) :=
  if hasMarkerPhrase (pyStrip rawLine) then
    acceptQuery (stripQuoteSpace (subLeadingToDelim (pyStrip rawLine)))
  else if matchesBullet (pyStrip rawLine) then
    acceptQuery (stripQuoteSpace (dropBulletRun (pyStrip rawLine)))
  else none

/-- Embeds `WebSearchAgent._extract_search_queries` on a plain string
strategy (the `str(strategy)` branch of the source). -/
def extract_search_queries (strategy_text : String) : List String :=
  if ((splitLines strategy_text.data).filterMap queryOfLine).isEmpty then
    if !(findQuoted strategy_text.data).isEmpty then
      ((findQuoted strategy_text.data).take 3).map fun l => String.mk l
    else [String.mk (pyStrip strategy_text.data)]
  else
    (((splitLines strategy_text.data).filterMap queryOfLine).take 5).map
      fun l => String.mk l

/-- Indicator phrases signalling that search results are complete. -/
def complete_indicators : List String :=
  ["adequately answer", "sufficient information", "comprehensive enough",
   "query is answered", "satisfactory"]

/-- Indicator phrases signalling that more searches are needed. -/
def incomplete_indicators : List String :=
  ["more information needed", "additional search", "missing information",
   "need to explore"]

/-- Case-folded character list of an evaluation text. -/
def lowerText (s : String) : List Char := lowerChars s.data

/-- Embeds `WebSearchAgent._is_search_complete` on a plain-string
evaluation: complete indicators first, then incomplete indicators, then a
default of `true`. -/
def is_search_complete (evaluation : String) : Bool :=
  if complete_indicators.any fun ind => containsSub (lowerText evaluation) ind.data then
    true
  else if incomplete_indicators.any fun ind => containsSub (lowerText evaluation) ind.data then
    false
  else
    true

/-- The `SearchResult` pydantic model of `core/structured_output.py`, in the
`model_dump` dictionary form returned by `WebSearchAgent.search`. -/
structure SearchResult where
  main_findings : String
  key_points : List String
  sources : List String
  confidence : Nat
  follow_up_questions : Option (List String) := none
  deriving Repr, DecidableEq

/-- Embeds `WebSearchAgent.search`.  The structured LangChain pipeline and
the raw DuckDuckGo tool are the parameters `chain` and `tool`; an exception
is an `Except.error`.  On a chain failure the method falls back to a raw
tool call and wraps its text in a degraded `SearchResult`-like dictionary;
an exception raised by that fallback call is not caught and propagates. -/
def search (chain : String → Except String SearchResult)
    (tool : String → Except String String) (query : String) :
    Except String SearchResult :=
  match chain query with
  | Except.ok search_data => Except.ok search_data
  | Except.error _ =>
    match tool query with
    | Except.ok search_results =>
      Except.ok { main_findings := search_results, key_points := [],
                  sources := [], confidence := 5 }
    | Except.error e => Except.error e

/-- One entry of the `all_search_results` list built by
`execute_search_strategy`: the dictionary
`{"query": ..., "result": ..., "number": i}`. -/
structure QueryOutcome where
  query : String
  result : SearchResult
  number : Nat
  deriving Repr, DecidableEq

/-- Embeds the numbered search loop of `execute_search_strategy`
(`for i, search_query in enumerate(search_queries, 1)`); an exception from
any single search aborts the loop and propagates. -/
def runSearches (doSearch : String → Except String SearchResult) :
    Nat → List String → Except String (List QueryOutcome)
  | _, [] => Except.ok []
  | i, q :: rest =>
    match doSearch q with
    | Except.error e => Except.error e
    | Except.ok result =>
      match runSearches doSearch (i + 1) rest with
      | Except.error e => Except.error e
      | Except.ok tail =>
        Except.ok ({ query := q, result := result, number := i } :: tail)

/-- The dictionary returned by `_create_combined_results`. -/
structure CombinedResults where
  text : String
  num_searches : Nat
  search_queries : List String
  deriving Repr, DecidableEq

/-- The `combined_prompt` f-string built by `_create_combined_results`,
including the per-search findings block appended in loop order. -/
def combinedPrompt (query : String) (search_results : List QueryOutcome) : String :=
  search_results.foldl
    (fun acc r =>
      acc ++ "Search " ++ toString r.number ++ ": " ++ r.query ++
        "\nFindings: " ++ r.result.main_findings ++ "\n\n")
    ("\n        I\x27ve searched for information about: \"" ++ query ++
      "\"\n        \n        Based on " ++ toString search_results.length ++
      " different searches, here\x27s what I found:\n        \n        ")

/-- The synthesis prompt of `_create_combined_results` after
`PromptTemplate.format` has substituted the two placeholders. -/
def combineTemplate (query combined_results : String) : String :=
  "\n        Combine these search results into a comprehensive answer:\n        \n        Original question: "
    ++ query
    ++ "\n        \n        Search information:\n        "
    ++ combined_results
    ++ "\n        \n        Provide a well-structured, comprehensive answer that synthesizes all the information.\n        Include only factual information from the search results.\n        "

/-- Embeds `WebSearchAgent._create_combined_results`: one LLM call, whose
failure is not caught and propagates. -/
def create_combined_results (llm : String → Except String String)
    (query : String) (search_results : List QueryOutcome) :
    Except String CombinedResults :=
  match llm (combineTemplate query (combinedPrompt query search_results)) with
  | Except.error e => Except.error e
  | Except.ok combined_text =>
    Except.ok { text := combined_text,
                num_searches := search_results.length,
                search_queries := search_results.map QueryOutcome.query }

/-- The evaluation prompt of `_evaluate_search_results` after
`PromptTemplate.format` has substituted the two placeholders. -/
def evaluateTemplate (query results : String) : String :=
  "\n        Evaluate if the search results adequately answer the original query.\n        \n        Original query: "
    ++ query
    ++ "\n        \n        Combined search results:\n        "
    ++ results
    ++ "\n        \n        Provide an evaluation of:\n        1. How well the search results answer the query\n        2. If any important information is missing\n        3. If additional searches would be helpful, and if so, what specific searches\n        4. A clear judgment: \"SEARCH COMPLETE\" or \"ADDITIONAL SEARCHES NEEDED\"\n        "

/-- Embeds `WebSearchAgent._evaluate_search_results`: one LLM call, whose
failure is not caught and propagates. -/
def evaluate_search_results (llm : String → Except String String)
    (query : String) (combined_results : CombinedResults) :
    Except String String :=
  llm (evaluateTemplate query combined_results.text)

/-- The dictionary returned by `execute_search_strategy`. -/
structure StrategyOutcome where
  original_query : String
  strategy : String
  queries : List String
  results : List QueryOutcome
  combined_results : CombinedResults
  evaluation : String
  complete : Bool
  deriving Repr, DecidableEq

/-- Embeds `WebSearchAgent.execute_search_strategy` (the session-file dumps
of the source are external side effects and are not modelled).  The stages
run in sequence — extraction, the numbered search loop, synthesis,
evaluation, completeness classification — and an exception raised by any
stage aborts the remainder and propagates. -/
def execute_search_strategy (chain : String → Except String SearchResult)
    (tool : String → Except String String)
    (llm : String → Except String String)
    (query strategy : String) : Except String StrategyOutcome :=
  match runSearches (search chain tool) 1 (extract_search_queries strategy) with
  | Except.error e => Except.error e
  | Except.ok all_search_results =>
    match create_combined_results llm query all_search_results with
    | Except.error e => Except.error e
    | Except.ok combined_results =>
      match evaluate_search_results llm query combined_results with
      | Except.error e => Except.error e
      | Except.ok evaluation =>
        Except.ok { original_query := query, strategy := strategy,
                    queries := extract_search_queries strategy,
                    results := all_search_results,
                    combined_results := combined_results,
                    evaluation := evaluation,
                    complete := is_search_complete evaluation }

/-- Helper: the extracted query list never exceeds five entries, whichever
branch of `_extract_search_queries` produces it. -/
theorem extract_search_queries_length_le (s : String) :
    (extract_search_queries s).length ≤ 5 := by
  unfold extract_search_queries
  split
  · split
    · simp [List.length_take]
    · simp
  · simp [List.length_take]

/-- C1: the claimed extraction fails on the code — on the strategy text
`"1. Search for recent AI safety papers\n2. Look up AI safety funding 2024"`,
`_extract_search_queries` does not return
`["recent AI safety papers", "AI safety funding 2024"]`, because neither
line contains the colon or dash required by the stripping regex
`^.*?[:-]\s*`. -/
theorem c1_claimed_extraction_fails :
    extract_search_queries
        "1. Search for recent AI safety papers\n2. Look up AI safety funding 2024" ≠
      ["recent AI safety papers", "AI safety funding 2024"] := by
  decide

/-- C1 (amended): on that strategy text the Query Normalizer returns the
two whole lines `["1. Search for recent AI safety papers",
"2. Look up AI safety funding 2024"]` — both lines contain a marker phrase,
but the delimiter strip is a no-op on lines holding no colon and no dash,
so only quote/whitespace trimming applies before the length test. -/
theorem c1_numbering_kept :
    extract_search_queries
        "1. Search for recent AI safety papers\n2. Look up AI safety funding 2024" =
      ["1. Search for recent AI safety papers", "2. Look up AI safety funding 2024"] := by
  decide

/-- The evaluator raw text of end-to-end scenario 4. -/
def scenario4Text : String :=
  "There is insufficient information; additional search needed for X"

/-- C3: the claim fails on the code — `_is_search_complete` on
`"There is insufficient information; additional search needed for X"` does
not return `false`. -/
theorem c3_claimed_incomplete_fails :
    ¬ (is_search_complete scenario4Text = false) := by
  decide

/-- C3 (amended): `_is_search_complete` on that text returns `true`: the
case-folded text contains the complete-indicator `"sufficient information"`
as a substring of `"insufficient information"`, and complete-indicators are
checked before the incomplete-indicator `"additional search"` that the text
also contains can classify it as incomplete. -/
theorem c3_insufficient_matches_complete_indicator :
    is_search_complete scenario4Text = true ∧
    containsSub (lowerText scenario4Text) "sufficient information".data = true ∧
    containsSub (lowerText scenario4Text) "additional search".data = true := by
  decide

/-- C4: any evaluation text whose case-folded form contains a
complete-indicator phrase classifies as complete, whatever else — in
particular any incomplete-indicator phrase — the text contains, because
`_is_search_complete` checks the complete-indicators first. -/
theorem c4_complete_indicator_forces_true (evaluation : String)
    (h : ∃ ind ∈ complete_indicators,
        containsSub (lowerText evaluation) ind.data = true) :
    is_search_complete evaluation = true := by
  unfold is_search_complete
  have hany :
      (complete_indicators.any fun ind =>
        containsSub (lowerText evaluation) ind.data) = true :=
    List.any_eq_true.mpr (by simpa using h)
  simp [hany]

/-- C4 witness: a text containing both the complete-indicator
`"sufficient information"` and the incomplete-indicator
`"additional search"` classifies as complete. -/
theorem c4_witness :
    is_search_complete
        "We have sufficient information, although an additional search could help" = true ∧
    containsSub
        (lowerText "We have sufficient information, although an additional search could help")
        "additional search".data = true :=
  ⟨c4_complete_indicator_forces_true _
      ⟨"sufficient information", by decide, by decide⟩,
    by decide⟩

/-- C5: an evaluation text whose case-folded form contains no phrase from
the complete-indicator set and none from the incomplete-indicator set
classifies as complete — the default-true fallback. -/
theorem c5_default_is_complete (evaluation : String)
    (hc : ∀ ind ∈ complete_indicators,
        containsSub (lowerText evaluation) ind.data = false)
    (hi : ∀ ind ∈ incomplete_indicators,
        containsSub (lowerText evaluation) ind.data = false) :
    is_search_complete evaluation = true := by
  unfold is_search_complete
  have h1 :
      (complete_indicators.any fun ind =>
        containsSub (lowerText evaluation) ind.data) = false := by
    rw [List.any_eq_false]
    intro ind hind
    simp [hc ind hind]
  have h2 :
      (incomplete_indicators.any fun ind =>
        containsSub (lowerText evaluation) ind.data) = false := by
    rw [List.any_eq_false]
    intro ind hind
    simp [hi ind hind]
  simp [h1, h2]

/-- C5 witness: a text containing no indicator phrase from either set
classifies as complete by the default fallback. -/
theorem c5_witness : is_search_complete "The weather is nice today" = true :=
  c5_default_is_complete _ (by decide) (by decide)

/-- C6: for every strategy text the Query Normalizer returns at most 5
queries; and when the per-line scan accepts at least one query, the result
is exactly the first five accepted queries — the first-seen order is
preserved by the truncation (the result is a sublist of the full accepted
sequence). -/
theorem c6_at_most_five_in_order (s : String) :
    (extract_search_queries s).length ≤ 5 ∧
    ((splitLines s.data).filterMap queryOfLine ≠ [] →
      extract_search_queries s =
        (((splitLines s.data).filterMap queryOfLine).take 5).map
          (fun l => String.mk l) ∧
      List.Sublist (extract_search_queries s)
        (((splitLines s.data).filterMap queryOfLine).map fun l => String.mk l)) := by
  refine ⟨extract_search_queries_length_le s, fun hne => ?_⟩
  have hq : ¬ (((splitLines s.data).filterMap queryOfLine).isEmpty = true) := by
    simpa [List.isEmpty_iff] using hne
  constructor
  · unfold extract_search_queries
    rw [if_neg hq]
  · unfold extract_search_queries
    rw [if_neg hq]
    exact (List.take_sublist 5 _).map _

/-- C6 witness: on a one-line strategy with a `Research:` marker, the
result is the first five (here: the only) accepted queries in order. -/
theorem c6_witness :
    (extract_search_queries "Research: quantum error correction codes").length ≤ 5 ∧
    extract_search_queries "Research: quantum error correction codes" =
      (((splitLines ("Research: quantum error correction codes").data).filterMap
          queryOfLine).take 5).map fun l => String.mk l :=
  ⟨(c6_at_most_five_in_order _).1,
    ((c6_at_most_five_in_order _).2 (by decide)).1⟩

/-- C7: when no line of the strategy text contains a marker phrase and no
line starts with an enumeration or bullet marker, but the text holds at
least one double-quoted substring, the Query Normalizer returns those
quoted substrings in order of occurrence, truncated to at most three, and
not the raw text. -/
theorem c7_quoted_fallback (s : String)
    (hlines : ∀ line ∈ splitLines s.data,
        hasMarkerPhrase (pyStrip line) = false ∧
        matchesBullet (pyStrip line) = false)
    (hq : findQuoted s.data ≠ []) :
    extract_search_queries s =
      ((findQuoted s.data).take 3).map fun l => String.mk l := by
  have hnone : ∀ line ∈ splitLines s.data, queryOfLine line = none := by
    intro line hl
    obtain ⟨h1, h2⟩ := hlines line hl
    unfold queryOfLine
    simp [h1, h2]
  have hfm : (splitLines s.data).filterMap queryOfLine = [] := by
    rw [List.filterMap_eq_nil_iff]
    exact hnone
  have hqe : (findQuoted s.data).isEmpty = false := by
    cases hfq : findQuoted s.data with
    | nil => exact absurd hfq hq
    | cons a t => rfl
  unfold extract_search_queries
  rw [hfm]
  simp [hqe]

/-- C7 witness: end-to-end scenario 2 — the strategy text
`Just check "quantum computing breakthroughs" please` has no marker or
bullet line and one quoted phrase, and the Normalizer returns exactly that
phrase. -/
theorem c7_witness :
    extract_search_queries "Just check \"quantum computing breakthroughs\" please" =
      ["quantum computing breakthroughs"] := by
  have h := c7_quoted_fallback
    "Just check \"quantum computing breakthroughs\" please" (by decide) (by decide)
  rw [h]
  decide

/-- Helper: the head of `dropWhile p l`, when present, fails `p` — the run
dropped by `dropWhile` is maximal. -/
theorem dropWhile_head_not_sat (p : Char → Bool) :
    ∀ (l : List Char) (d : Char), (l.dropWhile p).head? = some d → p d = false := by
  intro l
  induction l with
  | nil =>
    intro d h
    simp [List.dropWhile] at h
  | cons c t ih =>
    intro d h
    rw [List.dropWhile_cons] at h
    by_cases hp : p c
    · rw [if_pos hp] at h
      exact ih d h
    · rw [if_neg hp] at h
      simp at h
      subst h
      simpa using hp

/-- C10: a line without a marker phrase that matches the bullet pattern has
its query taken from the suffix after the maximal leading run of characters
from the class of digits, periods, closing parentheses, dashes, asterisks,
bullet characters and whitespace — so digits at the start of the payload
are consumed with the marker, and `"- 2024 election results"` yields
`"election results"`, not `"2024 election results"`. -/
theorem c10_bullet_strip_eats_leading_digits (rawLine : List Char)
    (hm : hasMarkerPhrase (pyStrip rawLine) = false)
    (hb : matchesBullet (pyStrip rawLine) = true) :
    (∃ pre suf, pyStrip rawLine = pre ++ suf ∧
      (∀ c ∈ pre, isBulletChar c = true) ∧
      (∀ d, suf.head? = some d → isBulletChar d = false) ∧
      queryOfLine rawLine = acceptQuery (stripQuoteSpace suf)) ∧
    extract_search_queries "- 2024 election results" = ["election results"] := by
  constructor
  · refine ⟨(pyStrip rawLine).takeWhile isBulletChar,
      (pyStrip rawLine).dropWhile isBulletChar,
      (List.takeWhile_append_dropWhile ..).symm, ?_, ?_, ?_⟩
    · intro c hc
      exact List.mem_takeWhile_imp hc
    · intro d hd
      exact dropWhile_head_not_sat _ _ d hd
    · unfold queryOfLine
      simp [hm, hb, dropBulletRun]
  · decide

/-- C10 witness: the concrete bullet line of the claim, processed by the
per-line step and by the whole extractor. -/
theorem c10_witness :
    queryOfLine ("- 2024 election results").data = some ("election results").data ∧
    extract_search_queries "- 2024 election results" = ["election results"] := by
  have h := c10_bullet_strip_eats_leading_digits ("- 2024 election results").data
    (by decide) (by decide)
  exact ⟨by decide, h.2⟩

/-- A structured search chain that always raises — as happens when the
underlying search provider raises, since the chain invokes the provider. -/
def failingChain : String → Except String SearchResult :=
  fun _ => Except.error "provider raised"

/-- A raw search tool that always raises. -/
def failingTool : String → Except String String :=
  fun _ => Except.error "provider raised"

/-- A raw search tool that always succeeds. -/
def okTool : String → Except String String :=
  fun q => Except.ok ("raw results for " ++ q)

/-- C2: the claim fails on the code — when the external search provider
raises on every call, the structured chain's failure is caught, but the
fallback `self.search_tool.invoke(query)` inside the `except` block raises
again and `search` propagates that exception to its caller; invoked from
`execute_search_strategy`, the exception aborts the whole strategy run
instead of yielding an empty result for the query and continuing. -/
theorem c2_provider_error_propagates :
    search failingChain failingTool "AI safety" = Except.error "provider raised" ∧
    execute_search_strategy failingChain failingTool (fun p => Except.ok p)
        "q" "Query: transformer history basics" =
      Except.error "provider raised" :=
  ⟨rfl, rfl⟩

/-- C2 (amended): `search` is fail-soft only up to the fallback call — for
every behaviour of the structured chain, if the raw fallback tool call
succeeds on the query then `search` raises no exception, and when the
structured chain raises, the value returned for that query is the degraded
dictionary wrapping the raw tool text (empty key points and sources,
confidence 5), not an empty result list. -/
theorem c2_search_fail_soft_when_tool_ok
    (chain : String → Except String SearchResult)
    (tool : String → Except String String) (query s : String)
    (htool : tool query = Except.ok s) :
    (∃ r, search chain tool query = Except.ok r) ∧
    (∀ e, chain query = Except.error e →
      search chain tool query =
        Except.ok { main_findings := s, key_points := [], sources := [],
                    confidence := 5 }) := by
  constructor
  · cases hc : chain query with
    | ok r => exact ⟨r, by simp [search, hc]⟩
    | error e =>
      exact ⟨{ main_findings := s, key_points := [], sources := [],
               confidence := 5 }, by simp [search, hc, htool]⟩
  · intro e hc
    simp [search, hc, htool]

/-- C2 witness: a chain that raises combined with a tool that answers — the
search returns normally with the degraded dictionary. -/
theorem c2_witness :
    (∃ r, search failingChain okTool "AI safety" = Except.ok r) ∧
    (∀ e, failingChain "AI safety" = Except.error e →
      search failingChain okTool "AI safety" =
        Except.ok { main_findings := "raw results for AI safety",
                    key_points := [], sources := [], confidence := 5 }) :=
  c2_search_fail_soft_when_tool_ok failingChain okTool "AI safety"
    "raw results for AI safety" rfl

/-- Helper: a successful run of the numbered search loop pairs each query,
in order, with its own search result and its position counted from the
initial counter value. -/
theorem runSearches_ok (doSearch : String → Except String SearchResult) :
    ∀ (qs : List String) (i : Nat) (rs : List QueryOutcome),
      runSearches doSearch i qs = Except.ok rs →
      rs.map QueryOutcome.query = qs ∧
      rs.map QueryOutcome.number = List.range' i qs.length ∧
      ∀ o ∈ rs, doSearch o.query = Except.ok o.result := by
  intro qs
  induction qs with
  | nil =>
    intro i rs h
    simp [runSearches] at h
    subst h
    simp [List.range']
  | cons q rest ih =>
    intro i rs h
    unfold runSearches at h
    cases hq : doSearch q with
    | error e =>
      rw [hq] at h
      exact absurd h (by simp)
    | ok result =>
      rw [hq] at h
      cases hr : runSearches doSearch (i + 1) rest with
      | error e =>
        rw [hr] at h
        exact absurd h (by simp)
      | ok tail =>
        rw [hr] at h
        simp at h
        obtain ⟨h1, h2, h3⟩ := ih (i + 1) tail hr
        subst h
        refine ⟨by simp [h1], by simp [List.range', h2], ?_⟩
        intro o ho
        rcases List.mem_cons.mp ho with rfl | ho2
        · simpa using hq
        · exact h3 o ho2

/-- C8: whenever `execute_search_strategy` returns a value, its results
list holds exactly one `QueryOutcome` per extracted query — same length as
the extracted query list (itself at most 5) — in extraction order, each
entry pairing its query with its own search result and its 1-based
position. -/
theorem c8_one_outcome_per_query
    (chain : String → Except String SearchResult)
    (tool : String → Except String String)
    (llm : String → Except String String)
    (query strategy : String) (out : StrategyOutcome)
    (h : execute_search_strategy chain tool llm query strategy = Except.ok out) :
    out.queries = extract_search_queries strategy ∧
    out.results.length = out.queries.length ∧
    out.queries.length ≤ 5 ∧
    out.results.map QueryOutcome.query = out.queries ∧
    out.results.map QueryOutcome.number = List.range' 1 out.queries.length ∧
    ∀ o ∈ out.results, search chain tool o.query = Except.ok o.result := by
  unfold execute_search_strategy at h
  split at h
  · exact absurd h (by simp)
  · rename_i rs hr
    split at h
    · exact absurd h (by simp)
    · rename_i comb hc
      split at h
      · exact absurd h (by simp)
      · rename_i ev he
        simp at h
        obtain ⟨hq, hn, ho⟩ := runSearches_ok (search chain tool) _ 1 rs hr
        subst h
        refine ⟨rfl, ?_, extract_search_queries_length_le strategy, hq, hn, ho⟩
        show rs.length = (extract_search_queries strategy).length
        rw [← List.length_map rs QueryOutcome.query, hq]

/-- A structured search chain that always succeeds. -/
def okChain : String → Except String SearchResult :=
  fun q => Except.ok { main_findings := "findings about " ++ q,
                       key_points := [], sources := [], confidence := 7 }

/-- An LLM collaborator that always succeeds. -/
def okLLM : String → Except String String :=
  fun _ => Except.ok "The results adequately answer the question."

/-- The strategy text of the C8 witness run. -/
def c8Strategy : String :=
  "1) history of the transformer architecture\n2) scaling laws for neural networks"

/-- The value `execute_search_strategy` returns on the C8 witness run. -/
def c8Out : StrategyOutcome :=
  { original_query := "transformers",
    strategy := c8Strategy,
    queries := ["history of the transformer architecture",
                "scaling laws for neural networks"],
    results :=
      [{ query := "history of the transformer architecture",
         result := { main_findings :=
                       "findings about history of the transformer architecture",
                     key_points := [], sources := [], confidence := 7 },
         number := 1 },
       { query := "scaling laws for neural networks",
         result := { main_findings :=
                       "findings about scaling laws for neural networks",
                     key_points := [], sources := [], confidence := 7 },
         number := 2 }],
    combined_results :=
      { text := "The results adequately answer the question.",
        num_searches := 2,
        search_queries := ["history of the transformer architecture",
                           "scaling laws for neural networks"] },
    evaluation := "The results adequately answer the question.",
    complete := true }

/-- C8 witness: a two-query strategy run end to end with collaborators that
answer, instantiating the per-query pairing at a concrete output value. -/
theorem c8_witness :
    c8Out.queries = extract_search_queries c8Strategy ∧
    c8Out.results.length = c8Out.queries.length ∧
    c8Out.queries.length ≤ 5 ∧
    c8Out.results.map QueryOutcome.query = c8Out.queries ∧
    c8Out.results.map QueryOutcome.number = List.range' 1 c8Out.queries.length ∧
    ∀ o ∈ c8Out.results, search okChain okTool o.query = Except.ok o.result :=
  c8_one_outcome_per_query okChain okTool okLLM "transformers" c8Strategy c8Out rfl

/-- C9: with the searches done, a failure of the LLM call made by the
synthesis stage, or of the one made by the evaluation stage, propagates out
of `execute_search_strategy` as the very same error — neither stage
catches, wraps or substitutes a degraded result. -/
theorem c9_llm_failure_propagates
    (chain : String → Except String SearchResult)
    (tool : String → Except String String)
    (llm : String → Except String String)
    (query strategy e : String) (rs : List QueryOutcome)
    (hruns : runSearches (search chain tool) 1 (extract_search_queries strategy) =
      Except.ok rs) :
    (create_combined_results llm query rs = Except.error e →
      execute_search_strategy chain tool llm query strategy = Except.error e) ∧
    (∀ c, create_combined_results llm query rs = Except.ok c →
      evaluate_search_results llm query c = Except.error e →
      execute_search_strategy chain tool llm query strategy = Except.error e) := by
  constructor
  · intro hcc
    unfold execute_search_strategy
    simp only [hruns, hcc]
  · intro c hcc hev
    unfold execute_search_strategy
    simp only [hruns, hcc, hev]

/-- An LLM collaborator that always fails. -/
def failingLLM : String → Except String String :=
  fun _ => Except.error "llm unavailable"

/-- The single query outcome of the C9 witness run. -/
def c9rs : List QueryOutcome :=
  [{ query := "transformer history basics",
     result := { main_findings := "findings about transformer history basics",
                 key_points := [], sources := [], confidence := 7 },
     number := 1 }]

/-- C9 witness: searches succeed, the synthesis LLM call fails, and the
same error surfaces from `execute_search_strategy`. -/
theorem c9_witness :
    execute_search_strategy okChain okTool failingLLM "q"
        "Query: transformer history basics" = Except.error "llm unavailable" :=
  (c9_llm_failure_propagates okChain okTool failingLLM "q"
      "Query: transformer history basics" "llm unavailable" c9rs rfl).1 rfl

end AgenticAI
